import Mathlib

set_option autoImplicit false

namespace ChatRoom

/-
Shallow embedding of the realtime core of the ChatRoom repository
(src/app/sockets.py and src/app/database.py).  Text is modelled as
Lean strings over their character lists; the ASCII fragment of the
CPython string operations that the handlers use (strip, lower,
substring membership) is embedded directly.  Unicode-only case
mappings and percent-decoding of query strings are outside the model:
every trigger token and every error string in the source is ASCII.
-/

/-- Characters removed by the Python str.strip method (the ASCII whitespace
characters space, tab, newline, carriage return, vertical tab, form feed). -/
def isPySpace (c : Char) : Bool :=
  c == ' ' || c == '\t' || c == '\n' || c == '\x0d' || c == '\x0b' || c == '\x0c'

/-- Embeds the Python str.strip method: drop ASCII whitespace from both ends. -/
def pyStrip (l : List Char) : List Char :=
  ((l.dropWhile isPySpace).reverse.dropWhile isPySpace).reverse

/-- Embeds the Python str.lower method on the ASCII range: the mention token
scanned for by the pipeline is pure ASCII. -/
def pyLower (c : Char) : Char :=
  if 'A' ≤ c ∧ c ≤ 'Z' then Char.ofNat (c.toNat + 32) else c

/-- Lowercase a whole character list. -/
def pyLowerL (l : List Char) : List Char := l.map pyLower

/-- Embeds the Python substring test (the in operator on str): the needle
occurs contiguously somewhere in the haystack. -/
def str_contains (needle hay : List Char) : Bool :=
  hay.tails.any (fun t => needle.isPrefixOf t)

/- ------------------------------------------------------------------
Query string handling: urllib.parse.parse_qs as used by
get_username_from_query.  Percent escapes are outside the model; the
plus sign decodes to a space, blank values are dropped
(keep_blank_values is False), parts without an equals sign are
skipped (strict_parsing is False).
------------------------------------------------------------------ -/

/-- Split a character list at every ampersand, keeping empty parts,
as the Python str.split method does. -/
def splitAmp : List Char → List (List Char)
  | [] => [[]]
  | c :: rest =>
    if c == '&' then [] :: splitAmp rest
    else
      match splitAmp rest with
      | g :: gs => (c :: g) :: gs
      | [] => [[c]]

/-- Split a character list at the first equals sign, or fail when there is
none, as str.split with maxsplit one followed by the length check does. -/
def splitEq1 : List Char → Option (List Char × List Char)
  | [] => none
  | c :: rest =>
    if c == '=' then some ([], rest)
    else (splitEq1 rest).map (fun p => (c :: p.1, p.2))

/-- Decode the plus sign to a space (urllib.parse.unquote_plus restricted to
the escape-free fragment used here). -/
def unquote_plus (l : List Char) : List Char :=
  l.map (fun c => if c == '+' then ' ' else c)

/-- Embeds urllib.parse.parse_qsl with default options: blank raw values are
dropped, pairs without an equals sign are skipped. -/
def parse_qsl (qs : List Char) : List (List Char × List Char) :=
  (splitAmp qs).filterMap (fun part =>
    if part.isEmpty then none
    else
      match splitEq1 part with
      | none => none
      | some (n, v) =>
        if v.isEmpty then none else some (unquote_plus n, unquote_plus v))

/-- Embeds sockets.get_username_from_query: parse the connection query string
and return the first username value, stripped; none when absent. -/
def get_username_from_query (query_string : List Char) : Option (List Char) :=
  let usernames := (parse_qsl query_string).filterMap
    (fun p => if p.1 == ['u','s','e','r','n','a','m','e'] then some p.2 else none)
  match usernames with
  | u :: _ => some (pyStrip u)
  | [] => none

/- ------------------------------------------------------------------
Store Gateway: the users collection with its unique index on username.
------------------------------------------------------------------ -/

/-- Error raised by the store when an insert violates the unique index on
username (pymongo DuplicateKeyError). -/
inductive DbErr
  | duplicateKey
deriving DecidableEq

/-- Embeds database.get_or_create_user.  The function performs a find
followed, when the find misses, by an insert; the two store accesses are
separate awaits, so the users collection may change in between when a
concurrent call races to create the same username.  usersAtFind is the
collection state seen by the find, usersAtInsert the state seen by the
insert; the unique index makes the insert fail with duplicateKey when the
username is already present at insert time.  The source has no handler for
that failure, so the error is returned to the caller. -/
def get_or_create_user (username : String) (usersAtFind usersAtInsert : List String) :
    Except DbErr (String × List String) :=
  if usersAtFind.contains username then .ok (username, usersAtInsert)
  else if usersAtInsert.contains username then .error .duplicateKey
  else .ok (username, usersAtInsert ++ [username])

/- ------------------------------------------------------------------
JSON values and json.loads.  The handlers accept either an already
structured dict or a JSON string; a string that fails to decode is
replaced by an empty dict, a string that decodes to a non-object
leaves the payload without usable fields.  The parser below embeds
json.loads on the fragment the handlers can meet: null, booleans,
integers, escape-free strings, arrays and objects; it is fuel-indexed
so that every definition stays structurally recursive and evaluable.
------------------------------------------------------------------ -/

/-- Values produced by json.loads. -/
inductive JsonV
  | jnull
  | jbool (b : Bool)
  | jnum (n : Int)
  | jstr (s : String)
  | jarr (xs : List JsonV)
  | jobj (kvs : List (String × JsonV))

/-- JSON insignificant whitespace. -/
def skipWs (l : List Char) : List Char :=
  l.dropWhile (fun c => c == ' ' || c == '\t' || c == '\n' || c == '\x0d')

/-- Body of a JSON string after the opening quote, escape-free fragment. -/
def parseStrBody : List Char → Option (List Char × List Char)
  | [] => none
  | '"' :: rest => some ([], rest)
  | '\\' :: _ => none
  | c :: rest => (parseStrBody rest).map (fun p => (c :: p.1, p.2))

/-- Decimal digit run to a natural number. -/
def digitsToNat (ds : List Char) : Nat :=
  ds.foldl (fun n c => n * 10 + (c.toNat - 48)) 0

/-- Parse a nonempty digit run. -/
def parseNumNat (cs : List Char) : Option (Nat × List Char) :=
  let ds := cs.takeWhile Char.isDigit
  if ds.isEmpty then none else some (digitsToNat ds, cs.dropWhile Char.isDigit)

/-- Parse an optionally negated integer literal. -/
def parseNum : List Char → Option (Int × List Char)
  | '-' :: rest => (parseNumNat rest).map (fun p => (-(p.1 : Int), p.2))
  | cs => (parseNumNat cs).map (fun p => ((p.1 : Int), p.2))

/-- Parse one key-value member of a JSON object, given a value parser. -/
def parseMember (pv : List Char → Option (JsonV × List Char)) (cs : List Char) :
    Option ((String × JsonV) × List Char) :=
  match skipWs cs with
  | '"' :: rest =>
    match parseStrBody rest with
    | none => none
    | some (k, rest2) =>
      match skipWs rest2 with
      | ':' :: rest3 => (pv rest3).map (fun p => ((String.mk k, p.1), p.2))
      | _ => none
  | _ => none

/-- Parse the remaining elements of a JSON array after the first one. -/
def parseElemsMore (pv : List Char → Option (JsonV × List Char)) :
    Nat → List Char → Option (List JsonV × List Char)
  | 0, _ => none
  | fuel + 1, cs =>
    match skipWs cs with
    | ']' :: rest => some ([], rest)
    | ',' :: rest =>
      match pv rest with
      | none => none
      | some (v, rest2) =>
        (parseElemsMore pv fuel rest2).map (fun p => (v :: p.1, p.2))
    | _ => none

/-- Parse the remaining members of a JSON object after the first one. -/
def parseMembersMore (pv : List Char → Option (JsonV × List Char)) :
    Nat → List Char → Option (List (String × JsonV) × List Char)
  | 0, _ => none
  | fuel + 1, cs =>
    match skipWs cs with
    | '\x7d' :: rest => some ([], rest)
    | ',' :: rest =>
      match parseMember pv rest with
      | none => none
      | some (kv, rest2) =>
        (parseMembersMore pv fuel rest2).map (fun p => (kv :: p.1, p.2))
    | _ => none

/-- Parse one JSON value, fuel-indexed. -/
def parseVal : Nat → List Char → Option (JsonV × List Char)
  | 0, _ => none
  | fuel + 1, cs =>
    match skipWs cs with
    | 'n' :: 'u' :: 'l' :: 'l' :: rest => some (.jnull, rest)
    | 't' :: 'r' :: 'u' :: 'e' :: rest => some (.jbool true, rest)
    | 'f' :: 'a' :: 'l' :: 's' :: 'e' :: rest => some (.jbool false, rest)
    | '"' :: rest => (parseStrBody rest).map (fun p => (.jstr (String.mk p.1), p.2))
    | '[' :: rest =>
      (match skipWs rest with
       | ']' :: rest2 => some (.jarr [], rest2)
       | _ =>
         match parseVal fuel rest with
         | none => none
         | some (v, rest2) =>
           (parseElemsMore (fun cs3 => parseVal fuel cs3) fuel rest2).map
             (fun p => (.jarr (v :: p.1), p.2)))
    | '\x7b' :: rest =>
      (match skipWs rest with
       | '\x7d' :: rest2 => some (.jobj [], rest2)
       | _ =>
         match parseMember (fun cs3 => parseVal fuel cs3) rest with
         | none => none
         | some (kv, rest2) =>
           (parseMembersMore (fun cs3 => parseVal fuel cs3) fuel rest2).map
             (fun p => (.jobj (kv :: p.1), p.2)))
    | cs2 => parseNum cs2 |>.map (fun p => (.jnum p.1, p.2))

/-- Embeds json.loads on the modelled fragment: parse one value and require
the remaining input to be whitespace; none models json.JSONDecodeError. -/
def json_loads (s : String) : Option JsonV :=
  match parseVal (s.data.length + 1) s.data with
  | some (v, rest) => if (skipWs rest).isEmpty then some v else none
  | none => none

/- ------------------------------------------------------------------
Data model: store documents, server state, outbound events.
------------------------------------------------------------------ -/

/-- Room document as stored in the rooms collection; the object id is
modelled as its 24 character hex string. -/
structure RoomDoc where
  oid : String
  name : String
  participant_usernames : List String
deriving DecidableEq

/-- Message document as stored in the messages collection; created_at is the
value of the server clock reading that produced it. -/
structure MessageDoc where
  room_oid : String
  sender_username : String
  text : String
  created_at : Nat
deriving DecidableEq

/-- Process and store state seen by the handlers: the sid_to_username module
map, the socket.io room membership map, and the three collections of the
store. -/
structure ServerState where
  sessions : List (String × String)
  groups : List (String × List String)
  users : List String
  roomDocs : List RoomDoc
  messages : List MessageDoc
deriving DecidableEq

/-- Target of an emit: a single sid, or every sid in a socket.io room. -/
inductive EmitTarget
  | toSid (sid : String)
  | toRoom (room : String)
deriving DecidableEq

/-- Outbound events, with the payload fields the handlers fill in. -/
inductive Event
  | error (message : String)
  | joined_room (room_id : String)
  | new_message (id : Nat) (room_id : String) (sender_username : String)
      (text : String) (created_at : Nat)
deriving DecidableEq

/-- Reasons a send or join stops before persisting, one per early return of
the handlers. -/
inductive RejectReason
  | notAuthenticated
  | missingRoom
  | emptyText
  | invalidRoomId
  | roomNotFound
  | forbidden
deriving DecidableEq

/-- Terminal state of one send_message run. -/
inductive SendOutcome
  | rejected (r : RejectReason)
  | done
deriving DecidableEq

/-- Uncaught Python exceptions the handlers can raise; the only reachable one
is the AttributeError from calling strip on a non-string text field. -/
inductive PyErr
  | attributeError
deriving DecidableEq

/-- Lookup in a Python dict modelled as an association list. -/
def dget {α : Type} (m : List (String × α)) (k : String) : Option α :=
  (m.find? (fun p => p.1 == k)).map (fun p => p.2)

/-- Assignment in a Python dict modelled as an association list. -/
def dset {α : Type} (m : List (String × α)) (k : String) (v : α) :
    List (String × α) :=
  m.filter (fun p => p.1 != k) ++ [(k, v)]

/-- Truthiness of a JSON value under the Python bool conversion. -/
def jtruthy : JsonV → Bool
  | .jnull => false
  | .jbool b => b
  | .jnum n => n != 0
  | .jstr s => s != ""
  | .jarr xs => !xs.isEmpty
  | .jobj kvs => !kvs.isEmpty

/-- Validity of a string for bson.ObjectId: exactly 24 hex characters. -/
def oidValid (l : List Char) : Bool :=
  l.length == 24 && l.all (fun c =>
    c.isDigit || ('a' ≤ c ∧ c ≤ 'f') || ('A' ≤ c ∧ c ≤ 'F'))

/-- Event payload as delivered to the handlers: a raw string (Socket.IO JSON
text), an already structured dict, or any other value such as a list or a
number passed through directly. -/
inductive Payload
  | pstr (s : String)
  | pdict (kvs : List (String × JsonV))
  | pother

/-- Embeds the shared payload normalization at the top of join_room,
leave_room and send_message: a string payload is json.loads decoded, a
decode error yields an empty dict; the result is the field list when the
data ends up being a dict, none otherwise. -/
def payload_dict : Payload → Option (List (String × JsonV))
  | .pstr s =>
    match json_loads s with
    | none => some []
    | some (.jobj kvs) => some kvs
    | some _ => none
  | .pdict kvs => some kvs
  | .pother => none

/-- Embeds the room_id extraction: data.get on the room_id key when data is
a dict, none otherwise. -/
def room_id_of (data : Payload) : Option JsonV :=
  (payload_dict data).bind (fun kvs => dget kvs "room_id")

/-- Embeds the text extraction of send_message before stripping: data.get
with an empty string default when data is a dict, the empty string
otherwise. -/
def text_raw_of (data : Payload) : JsonV :=
  ((payload_dict data).bind (fun kvs => dget kvs "text")).getD (.jstr "")

/- ------------------------------------------------------------------
Socket event handlers.
------------------------------------------------------------------ -/

/-- Embeds sockets.connect: extract the asserted username from the query
string; reject (returning False) when it is absent or falsy, before any
store access; otherwise get_or_create_user the username (no concurrent
writer is modelled here, so both store snapshots coincide and the insert
cannot fail) and register the sid in sid_to_username. -/
def connect (sid : String) (query_string : List Char) (st : ServerState) :
    Bool × ServerState :=
  match get_username_from_query query_string with
  | none => (false, st)
  | some u =>
    if u.isEmpty then (false, st)
    else
      let uname := String.mk u
      let users2 :=
        match get_or_create_user uname st.users st.users with
        | .ok p => p.2
        | .error _ => st.users
      (true, { st with users := users2, sessions := dset st.sessions sid uname })

/-- Remove a sid from every socket.io room group. -/
def purge_groups (groups : List (String × List String)) (sid : String) :
    List (String × List String) :=
  groups.map (fun g => (g.1, g.2.filter (fun x => x != sid)))

/-- Embeds sockets.disconnect together with the socket.io server behaviour it
relies on: the handler pops the sid from sid_to_username, and the server
itself removes a disconnecting sid from every room it had entered.
The room removal is library behaviour, not repository code; it is the
purge the spec mandates in the Session Registry and Multicast Group
Manager sections. -/
def disconnect (sid : String) (st : ServerState) : ServerState :=
  { st with
    sessions := st.sessions.filter (fun p => p.1 != sid),
    groups := purge_groups st.groups sid }

/-- Add a sid to a socket.io room group; socket.io rooms are sets, so
entering a room twice is a no-op. -/
def group_add (groups : List (String × List String)) (room sid : String) :
    List (String × List String) :=
  match dget groups room with
  | none => groups ++ [(room, [sid])]
  | some members =>
    if members.contains sid then groups
    else groups.map (fun g => if g.1 == room then (g.1, g.2 ++ [sid]) else g)

/-- Embeds sockets.join_room: normalize the payload, look the sid up in
sid_to_username, then in order check authentication, room_id presence
and truthiness, ObjectId wellformedness, room existence and room
membership, each failure emitting its error event to the caller only;
on success enter the socket.io room named by the raw room_id string and
confirm with a joined_room event. -/
def join_room (sid : String) (data : Payload) (st : ServerState) :
    ServerState × List (EmitTarget × Event) :=
  let room_id_v := room_id_of data
  match dget st.sessions sid with
  | none => (st, [(.toSid sid, .error "Not authenticated")])
  | some username =>
    if !(room_id_v.map jtruthy).getD false then
      (st, [(.toSid sid, .error "room_id is required")])
    else
      match room_id_v with
      | some (.jstr s) =>
        if !oidValid s.data then
          (st, [(.toSid sid, .error "Invalid room_id format")])
        else
          match st.roomDocs.find? (fun r => r.oid == s) with
          | none => (st, [(.toSid sid, .error "Room not found")])
          | some room =>
            if !room.participant_usernames.contains username then
              (st, [(.toSid sid, .error "Not a participant of this room")])
            else
              ({ st with groups := group_add st.groups s sid },
               [(.toSid sid, .joined_room s)])
      | _ => (st, [(.toSid sid, .error "Invalid room_id format")])

/- ------------------------------------------------------------------
Assistant Responder.
------------------------------------------------------------------ -/

/-- Letter a in either case, for the mention pattern under IGNORECASE. -/
def matchesA (c : Char) : Bool := c == 'a' || c == 'A'

/-- Letter i in either case, for the mention pattern under IGNORECASE. -/
def matchesI (c : Char) : Bool := c == 'i' || c == 'I'

/-- Fuel-indexed worker for removeAI; one unit of fuel is spent per character
of remaining input, so input length plus one always suffices. -/
def removeAIFuel : Nat → List Char → List Char
  | 0, cs => cs
  | fuel + 1, cs =>
    match cs with
    | '@' :: a :: i :: rest =>
      if matchesA a && matchesI i then removeAIFuel fuel (rest.dropWhile isPySpace)
      else '@' :: removeAIFuel fuel (a :: i :: rest)
    | c :: rest => c :: removeAIFuel fuel rest
    | [] => []

/-- Embeds the re.sub call of get_ai_response: delete every occurrence of the
at-sign followed by the letters a and i in either case and any following
whitespace, scanning left to right. -/
def removeAI (cs : List Char) : List Char :=
  removeAIFuel (cs.length + 1) cs

/-- Query string handed to the generation service: the user message with the
mention token removed, stripped. -/
def ai_query (user_message : String) : String :=
  String.mk (pyStrip (removeAI user_message.data))

/-- Fixed prompt shape of get_ai_response, embedding room name and query. -/
def mkPrompt (room_name query : String) : String :=
  "You are a helpful AI assistant in a chat room called \"" ++ room_name ++
  "\".\nA user is asking: " ++ query ++
  "\n\nGive a concise, helpful response. Keep it brief and to the point."

/-- Fixed user-visible fallback returned when the generation call raises. -/
def fallbackText : String := "Sorry, I couldn\x27t process that request."

/-- Embeds sockets.get_ai_response.  The external generation service is a
black box, modelled as a function from the prompt to either a raised
exception or the returned text; on success the text is stripped and
returned, on any exception the fixed fallback string is returned. -/
def get_ai_response (svc : String → Except Unit String)
    (room_name user_message : String) : String :=
  let query := ai_query user_message
  let prompt := mkPrompt room_name query
  match svc prompt with
  | .ok t => String.mk (pyStrip t.data)
  | .error _ => fallbackText

/- ------------------------------------------------------------------
send_message.
------------------------------------------------------------------ -/

/-- Embeds sockets.send_message.  tUser and tAI are the values returned by
the two datetime.utcnow calls, in the order the source makes them (the
second is only reached when the mention token is found); svc is the
external generation service.  The handler normalizes the payload, strips
the text (raising AttributeError when the text field is not a string,
which the source does not catch), then checks authentication, room_id
presence, nonempty text, ObjectId wellformedness, room existence and
room membership in that order, each failure emitting its error to the
caller only; on success it inserts the message document, broadcasts the
materialized event to the socket.io room named by the raw room_id
string, and when the lowercased text contains the mention token inserts
and broadcasts one assistant message built from get_ai_response. -/
def send_message (sid : String) (data : Payload) (tUser tAI : Nat)
    (svc : String → Except Unit String) (st : ServerState) :
    Except PyErr (SendOutcome × ServerState × List (EmitTarget × Event)) :=
  let room_id_v := room_id_of data
  match text_raw_of data with
  | .jstr traw =>
    let text := String.mk (pyStrip traw.data)
    match dget st.sessions sid with
    | none => .ok (.rejected .notAuthenticated, st,
        [(.toSid sid, .error "Not authenticated")])
    | some username =>
      if !(room_id_v.map jtruthy).getD false then
        .ok (.rejected .missingRoom, st,
          [(.toSid sid, .error "room_id is required")])
      else if text = "" then
        .ok (.rejected .emptyText, st,
          [(.toSid sid, .error "text cannot be empty")])
      else
        match room_id_v with
        | some (.jstr s) =>
          if !oidValid s.data then
            .ok (.rejected .invalidRoomId, st,
              [(.toSid sid, .error "Invalid room_id format")])
          else
            match st.roomDocs.find? (fun r => r.oid == s) with
            | none => .ok (.rejected .roomNotFound, st,
                [(.toSid sid, .error "Room not found")])
            | some room =>
              if !room.participant_usernames.contains username then
                .ok (.rejected .forbidden, st,
                  [(.toSid sid, .error "Not a participant of this room")])
              else
                let mid := st.messages.length
                let userMsg : MessageDoc := ⟨s, username, text, tUser⟩
                let userEv : Event := .new_message mid s username text tUser
                if str_contains "@ai".data (pyLowerL text.data) then
                  let ai_text := get_ai_response svc room.name text
                  let aiMsg : MessageDoc := ⟨s, "AI", ai_text, tAI⟩
                  let aiEv : Event := .new_message (mid + 1) s "AI" ai_text tAI
                  .ok (.done,
                    { st with messages := st.messages ++ [userMsg, aiMsg] },
                    [(.toRoom s, userEv), (.toRoom s, aiEv)])
                else
                  .ok (.done,
                    { st with messages := st.messages ++ [userMsg] },
                    [(.toRoom s, userEv)])
        | _ => .ok (.rejected .invalidRoomId, st,
            [(.toSid sid, .error "Invalid room_id format")])
  | _ => .error .attributeError

/-- Sids that an emit reaches: a direct emit reaches its sid, a room emit
reaches the current members of that socket.io room group. -/
def recipients (st : ServerState) : EmitTarget → List String
  | .toSid s => [s]
  | .toRoom r => (dget st.groups r).getD []

/- ------------------------------------------------------------------
Observers on a send_message result, and concrete fixtures used by
witnesses and counterexamples.
------------------------------------------------------------------ -/

/-- Terminal outcome of a send_message result, none when it raised. -/
def outcomeOf :
    Except PyErr (SendOutcome × ServerState × List (EmitTarget × Event)) →
    Option SendOutcome
  | .ok (o, _, _) => some o
  | .error _ => none

/-- Messages collection after a send_message result, none when it raised. -/
def resultMessages :
    Except PyErr (SendOutcome × ServerState × List (EmitTarget × Event)) →
    Option (List MessageDoc)
  | .ok (_, st2, _) => some st2.messages
  | .error _ => none

/-- Payloads the C10 claim ranges over, in its own words: a string that is
not valid JSON, or a value that is neither a JSON object nor a dict. -/
def bad_payload : Payload → Prop
  | .pstr s => json_loads s = none ∨ ∀ kvs, json_loads s ≠ some (.jobj kvs)
  | .pdict _ => False
  | .pother => True

/-- A wellformed room object id used by concrete witnesses. -/
def exRoomId : String := "5f1d7f9a8b4c3d2e1f0a9b8c"

/-- Concrete server state used by witnesses: three live connections, of which
alice and carol are participants of the one stored room and bob is not. -/
def exState : ServerState :=
  ⟨[("s1", "alice"), ("s2", "bob"), ("s3", "carol")],
   [(exRoomId, ["s1", "s2", "s3"])],
   ["alice", "bob", "carol"],
   [⟨exRoomId, "general", ["alice", "carol"]⟩],
   []⟩

/-- Generation service that always succeeds, for witnesses. -/
def exSvcOk : String → Except Unit String := fun _ => .ok "hi there"

/-- Generation service that always raises, for witnesses. -/
def exSvcFail : String → Except Unit String := fun _ => .error ()

/-- Generation service whose reply itself contains the mention token, for
the no-recursive-dispatch witness. -/
def exSvcMention : String → Except Unit String := fun _ => .ok "@AI hello"

/- ==================================================================
Theorems.
================================================================== -/

/-- Helper: a dict lookup after filtering a key out misses that key. -/
theorem dget_filter_ne {α : Type} (m : List (String × α)) (k : String) :
    dget (m.filter (fun p => p.1 != k)) k = none := by
  have h : (m.filter (fun p => p.1 != k)).find? (fun p => p.1 == k) = none := by
    rw [List.find?_eq_none]
    intro p hp
    have h2 := (List.mem_filter.mp hp).2
    simp only [bne_iff_ne, ne_eq] at h2
    simp [h2]
  simp [dget, h]

/-- Helper: every group of a purged group map is free of the purged sid. -/
theorem mem_purge_groups (groups : List (String × List String)) (sid : String)
    (g : String × List String) (hg : g ∈ purge_groups groups sid) :
    sid ∉ g.2 := by
  rcases List.mem_map.mp hg with ⟨g0, _, rfl⟩
  simp

/-- Helper: a lookup in a purged group map returns a sid-free member list. -/
theorem dget_purge_groups (groups : List (String × List String)) (sid r : String)
    (m : List String) (h : dget (purge_groups groups sid) r = some m) :
    sid ∉ m := by
  induction groups with
  | nil => simp [purge_groups, dget] at h
  | cons g gs ih =>
    by_cases he : g.1 = r
    · simp [purge_groups, dget, List.find?, he] at h
      subst h; simp
    · simp only [purge_groups, List.map, dget, List.find?] at h ih
      rw [show ((g.1 == r) = false) from beq_eq_false_iff_ne.mpr he] at h
      exact ih h

/-- C1 (code_bug evaluation): when a concurrent call inserts the same
username between the find and the insert of get_or_create_user, the
insert violates the unique index and the duplicate-key error is
returned to the caller instead of being retried as a lookup. -/
theorem C1_duplicate_key_propagates :
    get_or_create_user "alice" [] ["alice"] = .error .duplicateKey := rfl

/-- C2: a connection whose query string asserts no username, or one that is
empty after trimming, is rejected by connect before any session or store
mutation: connect returns False together with the untouched state, so no
session is ever registered for the handle and no user is created. -/
theorem C2_connect_rejects_missing_username (sid : String) (q : List Char)
    (st : ServerState)
    (h : get_username_from_query q = none ∨ get_username_from_query q = some []) :
    connect sid q st = (false, st) := by
  rcases h with h | h <;> simp [connect, h]

/-- Witness for C2 at a concrete query string whose username value trims to
the empty string. -/
theorem C2_witness :
    (get_username_from_query "username=+".data = none ∨
      get_username_from_query "username=+".data = some []) ∧
    connect "s9" "username=+".data exState = (false, exState) :=
  ⟨Or.inr rfl,
   C2_connect_rejects_missing_username "s9" "username=+".data exState (Or.inr rfl)⟩

/-- Helper: a send_message run never changes the socket.io group map; only
the messages collection grows. -/
theorem send_message_groups_eq (sid : String) (data : Payload) (tU tA : Nat)
    (svc : String → Except Unit String) (st : ServerState)
    (out : SendOutcome) (st2 : ServerState) (evs : List (EmitTarget × Event))
    (h : send_message sid data tU tA svc st = .ok (out, st2, evs)) :
    st2.groups = st.groups := by
  unfold send_message at h
  simp only [] at h
  repeat' split at h
  all_goals simp_all
  all_goals (obtain ⟨h1, h2, h3⟩ := h; subst h2; rfl)

/-- C9: disconnect removes the handle from the session registry and from
every broadcast group, so no room-targeted emit in the resulting state
reaches it, and any later send (which never alters the group map)
broadcasts only to room groups that still exclude the handle. -/
theorem C9_disconnect_purges (sid : String) (st : ServerState) :
    dget (disconnect sid st).sessions sid = none ∧
    (∀ g ∈ (disconnect sid st).groups, sid ∉ g.2) ∧
    (∀ r : String, sid ∉ recipients (disconnect sid st) (.toRoom r)) ∧
    (∀ (sid2 : String) (data : Payload) (tU tA : Nat)
        (svc : String → Except Unit String) (out : SendOutcome)
        (st2 : ServerState) (evs : List (EmitTarget × Event)),
      send_message sid2 data tU tA svc (disconnect sid st) = .ok (out, st2, evs) →
      ∀ (tgt : EmitTarget) (ev : Event) (r : String),
        (tgt, ev) ∈ evs → tgt = .toRoom r → sid ∉ recipients st2 tgt) := by
  have hrec : ∀ (groups : List (String × List String)) (r : String),
      sid ∉ ((dget (purge_groups groups sid) r).getD []) := by
    intro groups r
    cases hd : dget (purge_groups groups sid) r with
    | none => simp
    | some m => simpa using dget_purge_groups groups sid r m hd
  refine ⟨dget_filter_ne st.sessions sid,
          fun g hg => mem_purge_groups st.groups sid g hg,
          fun r => hrec st.groups r, ?_⟩
  intro sid2 data tU tA svc out st2 evs hsend tgt ev r _ htgt
  subst htgt
  have hgr : st2.groups = (disconnect sid st).groups :=
    send_message_groups_eq sid2 data tU tA svc (disconnect sid st) out st2 evs hsend
  simpa [recipients, hgr, disconnect] using hrec st.groups r

/-- Witness for C9: after disconnecting the first connection, a send by a
still-connected participant broadcasts to a group that no longer contains
the disconnected handle. -/
theorem C9_witness :
    "s1" ∉ recipients
      { disconnect "s1" exState with
        messages := [⟨exRoomId, "carol", "hello", 0⟩] }
      (.toRoom exRoomId) := by
  refine (C9_disconnect_purges "s1" exState).2.2.2 "s3"
    (.pdict [("room_id", .jstr exRoomId), ("text", .jstr "hello")]) 0 0 exSvcOk
    .done _ _ rfl (.toRoom exRoomId)
    (.new_message 0 exRoomId "carol" "hello" 0) exRoomId ?_ rfl
  exact List.mem_singleton.mpr rfl

/-- Helper: a payload of the kind C10 ranges over normalizes to no usable
fields: the room_id lookup misses and the text defaults to the empty
string. -/
theorem bad_payload_fields (data : Payload) (h : bad_payload data) :
    room_id_of data = none ∧ text_raw_of data = .jstr "" := by
  cases data with
  | pstr s =>
    rcases h with h | h
    · simp [room_id_of, text_raw_of, payload_dict, h, dget]
    · cases hj : json_loads s with
      | none => simp [room_id_of, text_raw_of, payload_dict, hj, dget]
      | some v =>
        cases v <;> first
          | exact absurd hj (h _)
          | simp [room_id_of, text_raw_of, payload_dict, hj]
  | pdict kvs => exact h.elim
  | pother => simp [room_id_of, text_raw_of, payload_dict, dget]

/-- C10 (amended): a join_room or send_message payload that is a string not
decoding as JSON, or that is neither a JSON object nor a dict, never makes
the handler raise: the handler proceeds as if the payload had no fields
and emits one error event to the originating connection only — the
missing-room_id error when the connection has a registered session, the
not-authenticated error when it has none — leaving all state unchanged. -/
theorem C10_malformed_payload_safe (sid : String) (data : Payload) (tU tA : Nat)
    (svc : String → Except Unit String) (st : ServerState)
    (hbad : bad_payload data) :
    (∀ u, dget st.sessions sid = some u →
      join_room sid data st = (st, [(.toSid sid, .error "room_id is required")]) ∧
      send_message sid data tU tA svc st =
        .ok (.rejected .missingRoom, st,
          [(.toSid sid, .error "room_id is required")])) ∧
    (dget st.sessions sid = none →
      join_room sid data st = (st, [(.toSid sid, .error "Not authenticated")]) ∧
      send_message sid data tU tA svc st =
        .ok (.rejected .notAuthenticated, st,
          [(.toSid sid, .error "Not authenticated")])) := by
  obtain ⟨hroom, htext⟩ := bad_payload_fields data hbad
  constructor
  · intro u hu
    constructor
    · simp [join_room, hroom, hu]
    · simp [send_message, htext, hroom, hu]
  · intro hu
    constructor
    · simp [join_room, hroom, hu]
    · simp [send_message, htext, hroom, hu]

/-- Counterexample to C10 as stated: for a connection with no registered
session, a non-JSON string payload is answered with the
not-authenticated error, not the missing-room_id error the claim
promises. -/
theorem C10_counterexample :
    join_room "zz" (.pstr "oops") exState =
      (exState, [(.toSid "zz", .error "Not authenticated")]) ∧
    Event.error "Not authenticated" ≠ Event.error "room_id is required" :=
  ⟨rfl, by decide⟩

/-- Witness for C10 on an authenticated connection and a concrete non-JSON
string payload. -/
theorem C10_witness :
    join_room "s1" (.pstr "oops") exState =
      (exState, [(.toSid "s1", .error "room_id is required")]) ∧
    send_message "s1" (.pstr "oops") 0 0 exSvcOk exState =
      .ok (.rejected .missingRoom, exState,
        [(.toSid "s1", .error "room_id is required")]) :=
  (C10_malformed_payload_safe "s1" (.pstr "oops") 0 0 exSvcOk exState
    (Or.inl rfl)).1 "alice" rfl

/-- C3 (amended): an authenticated send whose payload carries a truthy
room_id value and whose text is empty or whitespace-only after trimming
terminates in Rejected EmptyText: one error event is emitted to the
sender only, no message is persisted and nothing is broadcast. -/
theorem C3_empty_text_rejected (sid : String) (data : Payload) (tU tA : Nat)
    (svc : String → Except Unit String) (st : ServerState) (u t : String)
    (v : JsonV)
    (hauth : dget st.sessions sid = some u)
    (hroomv : room_id_of data = some v) (htr : jtruthy v = true)
    (htext : text_raw_of data = .jstr t) (hstrip : pyStrip t.data = []) :
    send_message sid data tU tA svc st =
      .ok (.rejected .emptyText, st,
        [(.toSid sid, .error "text cannot be empty")]) := by
  simp [send_message, htext, hauth, hroomv, htr, hstrip]

/-- Counterexample to C3 as stated: an authenticated send with
whitespace-only text but no room_id terminates in Rejected MissingRoom,
not Rejected EmptyText. -/
theorem C3_counterexample :
    dget exState.sessions "s1" = some "alice" ∧
    pyStrip " ".data = [] ∧
    outcomeOf (send_message "s1" (.pdict [("text", .jstr " ")]) 0 0 exSvcOk
      exState) = some (.rejected .missingRoom) ∧
    some (SendOutcome.rejected .missingRoom) ≠
      some (SendOutcome.rejected .emptyText) :=
  ⟨rfl, rfl, rfl, by decide⟩

/-- Witness for C3 at a concrete whitespace-only send. -/
theorem C3_witness :
    send_message "s1" (.pdict [("room_id", .jstr exRoomId), ("text", .jstr " ")])
      0 0 exSvcOk exState =
      .ok (.rejected .emptyText, exState,
        [(.toSid "s1", .error "text cannot be empty")]) :=
  C3_empty_text_rejected "s1" _ 0 0 exSvcOk exState "alice" " " (.jstr exRoomId)
    rfl rfl rfl rfl rfl

/-- C4 (amended): a send by an authenticated username that is not in the
target room's participant_usernames — with a wellformed room_id naming an
existing room and a nonempty trimmed text, so that the participant check
is reached — terminates in Rejected Forbidden: one error event is emitted
to the originating connection only, no message is persisted and no
broadcast occurs; the participant check reads the room document of the
store state passed to this very call, never a cache. -/
theorem C4_forbidden_rejected (sid : String) (data : Payload) (tU tA : Nat)
    (svc : String → Except Unit String) (st : ServerState) (u t s : String)
    (room : RoomDoc)
    (hauth : dget st.sessions sid = some u)
    (hroomv : room_id_of data = some (.jstr s))
    (hoid : oidValid s.data = true)
    (htext : text_raw_of data = .jstr t) (hne : pyStrip t.data ≠ [])
    (hfind : st.roomDocs.find? (fun r => r.oid == s) = some room)
    (hmem : room.participant_usernames.contains u = false) :
    send_message sid data tU tA svc st =
      .ok (.rejected .forbidden, st,
        [(.toSid sid, .error "Not a participant of this room")]) := by
  have hs : s ≠ "" := by
    intro hempty
    subst hempty
    simp [oidValid] at hoid
  have htxt : String.mk (pyStrip t.data) ≠ "" := by
    intro hempty
    exact hne (by simpa using congrArg String.data hempty)
  have htr : jtruthy (.jstr s) = true := by simp [jtruthy, hs]
  have hmem2 : u ∉ room.participant_usernames := by simpa using hmem
  simp [send_message, htext, hauth, hroomv, htr, htxt, hoid, hfind, hmem2]

/-- Counterexample to C4 as stated: a send by a non-participant whose text
is whitespace-only terminates in Rejected EmptyText, not Rejected
Forbidden. -/
theorem C4_counterexample :
    dget exState.sessions "s2" = some "bob" ∧
    (exState.roomDocs.find? (fun r => r.oid == exRoomId)).map
      (fun r => r.participant_usernames.contains "bob") = some false ∧
    outcomeOf (send_message "s2"
      (.pdict [("room_id", .jstr exRoomId), ("text", .jstr "  ")]) 0 0 exSvcOk
      exState) = some (.rejected .emptyText) ∧
    some (SendOutcome.rejected .emptyText) ≠
      some (SendOutcome.rejected .forbidden) :=
  ⟨rfl, rfl, rfl, by decide⟩

/-- Witness for C4 at a concrete non-participant send. -/
theorem C4_witness :
    send_message "s2" (.pdict [("room_id", .jstr exRoomId), ("text", .jstr "yo")])
      0 0 exSvcOk exState =
      .ok (.rejected .forbidden, exState,
        [(.toSid "s2", .error "Not a participant of this room")]) :=
  C4_forbidden_rejected "s2" _ 0 0 exSvcOk exState "bob" "yo" exRoomId
    ⟨exRoomId, "general", ["alice", "carol"]⟩ rfl rfl rfl rfl
    (by decide) rfl rfl

/-- C5: on a send that passes validation and authorization, the assistant is
dispatched if and only if the lowercased stripped text contains the
mention token as a literal substring: without the token the pipeline ends
at Done having persisted and broadcast exactly the one sender message;
with it, exactly one further assistant message derived from the
generation service is persisted and broadcast after it. -/
theorem C5_mention_dispatch_iff (sid : String) (data : Payload) (tU tA : Nat)
    (svc : String → Except Unit String) (st : ServerState) (u t s : String)
    (room : RoomDoc)
    (hauth : dget st.sessions sid = some u)
    (hroomv : room_id_of data = some (.jstr s))
    (hoid : oidValid s.data = true)
    (htext : text_raw_of data = .jstr t) (hne : pyStrip t.data ≠ [])
    (hfind : st.roomDocs.find? (fun r => r.oid == s) = some room)
    (hmem : room.participant_usernames.contains u = true) :
    (str_contains "@ai".data (pyLowerL (pyStrip t.data)) = false →
      send_message sid data tU tA svc st =
        .ok (.done,
          { st with messages :=
              st.messages ++ [⟨s, u, String.mk (pyStrip t.data), tU⟩] },
          [(.toRoom s,
            .new_message st.messages.length s u (String.mk (pyStrip t.data)) tU)])) ∧
    (str_contains "@ai".data (pyLowerL (pyStrip t.data)) = true →
      send_message sid data tU tA svc st =
        .ok (.done,
          { st with messages := st.messages ++
              [⟨s, u, String.mk (pyStrip t.data), tU⟩,
               ⟨s, "AI",
                get_ai_response svc room.name (String.mk (pyStrip t.data)), tA⟩] },
          [(.toRoom s,
            .new_message st.messages.length s u (String.mk (pyStrip t.data)) tU),
           (.toRoom s,
            .new_message (st.messages.length + 1) s "AI"
              (get_ai_response svc room.name (String.mk (pyStrip t.data))) tA)])) := by
  have hs : s ≠ "" := by
    intro hempty
    subst hempty
    simp [oidValid] at hoid
  have htxt : String.mk (pyStrip t.data) ≠ "" := by
    intro hempty
    exact hne (by simpa using congrArg String.data hempty)
  have htr : jtruthy (.jstr s) = true := by simp [jtruthy, hs]
  have hmem2 : u ∈ room.participant_usernames := by simpa using hmem
  constructor
  · intro hment
    simp [send_message, htext, hauth, hroomv, htr, htxt, hoid, hfind, hmem2, hment]
  · intro hment
    simp [send_message, htext, hauth, hroomv, htr, htxt, hoid, hfind, hmem2, hment]

/-- Witness for C5 at a concrete mention-free send: exactly one message is
persisted and the pipeline ends at Done. -/
theorem C5_witness :
    send_message "s1" (.pdict [("room_id", .jstr exRoomId), ("text", .jstr "hello")])
      0 0 exSvcOk exState =
      .ok (.done,
        { exState with messages := [⟨exRoomId, "alice", "hello", 0⟩] },
        [(.toRoom exRoomId, .new_message 0 exRoomId "alice" "hello" 0)]) :=
  (C5_mention_dispatch_iff "s1"
    (.pdict [("room_id", .jstr exRoomId), ("text", .jstr "hello")]) 0 0
    exSvcOk exState "alice" "hello" exRoomId
    ⟨exRoomId, "general", ["alice", "carol"]⟩ rfl rfl rfl rfl (by decide)
    rfl rfl).1 rfl

/-- C6: when a send triggers the assistant, the reply is persisted and
broadcast with sender_username fixed to the reserved assistant identity,
without revalidation, reauthorization or a second mention check: even
when the reply text itself contains the mention token, exactly one
assistant message is appended and exactly one assistant broadcast is
emitted, so one send dispatches the assistant at most once. -/
theorem C6_assistant_no_recursion (sid : String) (data : Payload) (tU tA : Nat)
    (svc : String → Except Unit String) (st : ServerState) (u t s : String)
    (room : RoomDoc)
    (hauth : dget st.sessions sid = some u)
    (hroomv : room_id_of data = some (.jstr s))
    (hoid : oidValid s.data = true)
    (htext : text_raw_of data = .jstr t) (hne : pyStrip t.data ≠ [])
    (hfind : st.roomDocs.find? (fun r => r.oid == s) = some room)
    (hmem : room.participant_usernames.contains u = true)
    (hment : str_contains "@ai".data (pyLowerL (pyStrip t.data)) = true)
    (hreply : str_contains "@ai".data
      (pyLowerL (get_ai_response svc room.name (String.mk (pyStrip t.data))).data)
      = true) :
    send_message sid data tU tA svc st =
      .ok (.done,
        { st with messages := st.messages ++
            [⟨s, u, String.mk (pyStrip t.data), tU⟩,
             ⟨s, "AI",
              get_ai_response svc room.name (String.mk (pyStrip t.data)), tA⟩] },
        [(.toRoom s,
          .new_message st.messages.length s u (String.mk (pyStrip t.data)) tU),
         (.toRoom s,
          .new_message (st.messages.length + 1) s "AI"
            (get_ai_response svc room.name (String.mk (pyStrip t.data))) tA)]) := by
  have hs : s ≠ "" := by
    intro hempty
    subst hempty
    simp [oidValid] at hoid
  have htxt : String.mk (pyStrip t.data) ≠ "" := by
    intro hempty
    exact hne (by simpa using congrArg String.data hempty)
  have htr : jtruthy (.jstr s) = true := by simp [jtruthy, hs]
  have hmem2 : u ∈ room.participant_usernames := by simpa using hmem
  simp [send_message, htext, hauth, hroomv, htr, htxt, hoid, hfind, hmem2, hment]

/-- Witness for C6 with a generation service whose reply itself contains the
mention token: still exactly one assistant message. -/
theorem C6_witness :
    send_message "s1"
      (.pdict [("room_id", .jstr exRoomId), ("text", .jstr "hi @ai")])
      3 5 exSvcMention exState =
      .ok (.done,
        { exState with messages :=
            [⟨exRoomId, "alice", "hi @ai", 3⟩, ⟨exRoomId, "AI", "@AI hello", 5⟩] },
        [(.toRoom exRoomId, .new_message 0 exRoomId "alice" "hi @ai" 3),
         (.toRoom exRoomId, .new_message 1 exRoomId "AI" "@AI hello" 5)]) :=
  C6_assistant_no_recursion "s1" _ 3 5 exSvcMention exState "alice" "hi @ai"
    exRoomId ⟨exRoomId, "general", ["alice", "carol"]⟩ rfl rfl rfl rfl
    (by decide) rfl rfl rfl rfl

/-- C7 (amended): when the generation call raises, get_ai_response returns
the fixed fallback string instead of propagating the error, and the
pipeline persists and broadcasts the assistant message with that fallback
text like a normal assistant reply; a successful but empty generation
result, however, is returned as the empty string, not as the fallback. -/
theorem C7_service_failure_fallback (sid : String) (data : Payload)
    (tU tA : Nat) (svc : String → Except Unit String) (st : ServerState)
    (u t s : String) (room : RoomDoc)
    (hauth : dget st.sessions sid = some u)
    (hroomv : room_id_of data = some (.jstr s))
    (hoid : oidValid s.data = true)
    (htext : text_raw_of data = .jstr t) (hne : pyStrip t.data ≠ [])
    (hfind : st.roomDocs.find? (fun r => r.oid == s) = some room)
    (hmem : room.participant_usernames.contains u = true)
    (hment : str_contains "@ai".data (pyLowerL (pyStrip t.data)) = true)
    (hsvc : svc (mkPrompt room.name (ai_query (String.mk (pyStrip t.data)))) =
      .error ()) :
    get_ai_response svc room.name (String.mk (pyStrip t.data)) = fallbackText ∧
    send_message sid data tU tA svc st =
      .ok (.done,
        { st with messages := st.messages ++
            [⟨s, u, String.mk (pyStrip t.data), tU⟩,
             ⟨s, "AI", fallbackText, tA⟩] },
        [(.toRoom s,
          .new_message st.messages.length s u (String.mk (pyStrip t.data)) tU),
         (.toRoom s,
          .new_message (st.messages.length + 1) s "AI" fallbackText tA)]) := by
  have hfall : get_ai_response svc room.name (String.mk (pyStrip t.data)) =
      fallbackText := by
    simp [get_ai_response, hsvc]
  refine ⟨hfall, ?_⟩
  have h5 := (C5_mention_dispatch_iff sid data tU tA svc st u t s room hauth
    hroomv hoid htext hne hfind hmem).2 hment
  rw [h5, hfall]

/-- Counterexample to C7 as stated: a successful generation call that
returns the empty string yields the empty reply text, not the fixed
fallback string the claim promises for an empty result. -/
theorem C7_counterexample :
    get_ai_response (fun _ => .ok "") "general" "@ai what time" = "" ∧
    ("" : String) ≠ fallbackText :=
  ⟨rfl, by decide⟩

/-- Witness for C7 with the always-raising generation service. -/
theorem C7_witness :
    get_ai_response exSvcFail "general" "hi @ai" = fallbackText ∧
    send_message "s1"
      (.pdict [("room_id", .jstr exRoomId), ("text", .jstr "hi @ai")])
      3 5 exSvcFail exState =
      .ok (.done,
        { exState with messages :=
            [⟨exRoomId, "alice", "hi @ai", 3⟩,
             ⟨exRoomId, "AI", fallbackText, 5⟩] },
        [(.toRoom exRoomId, .new_message 0 exRoomId "alice" "hi @ai" 3),
         (.toRoom exRoomId, .new_message 1 exRoomId "AI" fallbackText 5)]) :=
  C7_service_failure_fallback "s1" _ 3 5 exSvcFail exState "alice" "hi @ai"
    exRoomId ⟨exRoomId, "general", ["alice", "carol"]⟩ rfl rfl rfl rfl
    (by decide) rfl rfl rfl rfl

/-- C8 (amended): the assistant reply is persisted and broadcast strictly
after the triggering user message — it is appended after it in the
messages collection and emitted after it in the broadcast sequence — and
its timestamp is the later of the two clock readings the handler makes,
hence never earlier than the triggering message's timestamp, and strictly
later exactly when the clock advanced between the two readings; the
source does not force the clock to advance, so strictness is not
unconditional. -/
theorem C8_assistant_after_trigger (sid : String) (data : Payload)
    (tU tA : Nat) (svc : String → Except Unit String) (st : ServerState)
    (u t s : String) (room : RoomDoc)
    (hauth : dget st.sessions sid = some u)
    (hroomv : room_id_of data = some (.jstr s))
    (hoid : oidValid s.data = true)
    (htext : text_raw_of data = .jstr t) (hne : pyStrip t.data ≠ [])
    (hfind : st.roomDocs.find? (fun r => r.oid == s) = some room)
    (hmem : room.participant_usernames.contains u = true)
    (hment : str_contains "@ai".data (pyLowerL (pyStrip t.data)) = true)
    (hclock : tU ≤ tA) :
    send_message sid data tU tA svc st =
      .ok (.done,
        { st with messages := st.messages ++
            [⟨s, u, String.mk (pyStrip t.data), tU⟩,
             ⟨s, "AI",
              get_ai_response svc room.name (String.mk (pyStrip t.data)), tA⟩] },
        [(.toRoom s,
          .new_message st.messages.length s u (String.mk (pyStrip t.data)) tU),
         (.toRoom s,
          .new_message (st.messages.length + 1) s "AI"
            (get_ai_response svc room.name (String.mk (pyStrip t.data))) tA)]) ∧
    (⟨s, u, String.mk (pyStrip t.data), tU⟩ : MessageDoc).created_at ≤
      (⟨s, "AI",
        get_ai_response svc room.name (String.mk (pyStrip t.data)), tA⟩ :
        MessageDoc).created_at ∧
    (tU < tA →
      (⟨s, u, String.mk (pyStrip t.data), tU⟩ : MessageDoc).created_at <
        (⟨s, "AI",
          get_ai_response svc room.name (String.mk (pyStrip t.data)), tA⟩ :
          MessageDoc).created_at) :=
  ⟨(C5_mention_dispatch_iff sid data tU tA svc st u t s room hauth hroomv hoid
      htext hne hfind hmem).2 hment,
   hclock, fun h => h⟩

/-- Counterexample to C8 as stated: when the two clock readings coincide the
assistant message is persisted with a timestamp equal to — not strictly
later than — the triggering message's timestamp. -/
theorem C8_counterexample :
    resultMessages (send_message "s1"
      (.pdict [("room_id", .jstr exRoomId), ("text", .jstr "hi @AI")]) 5 5
      exSvcOk exState) =
      some [⟨exRoomId, "alice", "hi @AI", 5⟩, ⟨exRoomId, "AI", "hi there", 5⟩] ∧
    ¬ ((5 : Nat) < 5) :=
  ⟨rfl, by decide⟩

/-- Witness for C8 with the clock advancing between the two readings. -/
theorem C8_witness :
    send_message "s1"
      (.pdict [("room_id", .jstr exRoomId), ("text", .jstr "hi @AI")]) 3 5
      exSvcOk exState =
      .ok (.done,
        { exState with messages :=
            [⟨exRoomId, "alice", "hi @AI", 3⟩, ⟨exRoomId, "AI", "hi there", 5⟩] },
        [(.toRoom exRoomId, .new_message 0 exRoomId "alice" "hi @AI" 3),
         (.toRoom exRoomId, .new_message 1 exRoomId "AI" "hi there" 5)]) ∧
    (3 : Nat) ≤ 5 ∧ ((3 : Nat) < 5 → (3 : Nat) < 5) := by
  have h := C8_assistant_after_trigger "s1"
    (.pdict [("room_id", .jstr exRoomId), ("text", .jstr "hi @AI")]) 3 5
    exSvcOk exState "alice" "hi @AI" exRoomId
    ⟨exRoomId, "general", ["alice", "carol"]⟩ rfl rfl rfl rfl (by decide)
    rfl rfl rfl (by decide)
  exact ⟨h.1, h.2.1, h.2.2⟩

end ChatRoom
